import Mathlib

/-!
pico: upstream server, metrics middleware and configuration validation.

A shallow embedding of

* `server/config/config.go` (the `Validate` methods and `Config.RegisterFlags`),
* `server/server/middleware/metrics.go` (`NewMetrics`),
* `server/server/upstream/server.go` (`NewServer`, `Shutdown`, `listenerRoute`,
  `panicRoute`),

together with the properties of these functions that the design document states.

Conventions.  A Go `error` is represented by its message (`Option String`, `none`
is `nil`).  `time.Duration` is a count of nanoseconds and `time.Time` is the
number of nanoseconds since the zero instant, so `t.IsZero()` is `t = 0`.
Calls made on collaborators (logger, proxy, stream, websocket upgrader) are
recorded, in program order, as a list of events; results that come back from a
collaborator are inputs of the embedded function.
-/

namespace Pico

/-! ## Time -/

/-- Go `time.Duration`: nanoseconds. -/
abbrev Duration := Int

/-- Go `time.Time`: nanoseconds since the zero instant. -/
abbrev Time := Int

def Nanosecond : Duration := 1
def Microsecond : Duration := 1000 * Nanosecond
def Millisecond : Duration := 1000 * Microsecond
def Second : Duration := 1000 * Millisecond
def Minute : Duration := 60 * Second

/-- Go `Time.IsZero`. -/
def Time.IsZero (t : Time) : Bool := decide (t = 0)

/-- Go `error`, by its message. -/
abbrev Error := String

/-! ## config.go -/

namespace config

structure ProxyConfig where
  BindAddr : String
  AdvertiseAddr : String
  GatewayTimeout : Duration
deriving Repr, DecidableEq

def ProxyConfig.Validate (c : ProxyConfig) : Option Error :=
  if c.BindAddr = "" then
    some "missing bind addr"
  else if c.GatewayTimeout = 0 then
    some "missing gateway timeout"
  else
    none

structure UpstreamConfig where
  BindAddr : String
  AdvertiseAddr : String
deriving Repr, DecidableEq

def UpstreamConfig.Validate (c : UpstreamConfig) : Option Error :=
  if c.BindAddr = "" then
    some "missing bind addr"
  else
    none

structure AdminConfig where
  BindAddr : String
  AdvertiseAddr : String
deriving Repr, DecidableEq

def AdminConfig.Validate (c : AdminConfig) : Option Error :=
  if c.BindAddr = "" then
    some "missing bind addr"
  else
    none

structure ClusterConfig where
  NodeID : String
  NodeIDPrefix : String
  Join : List String
  AbortIfJoinFails : Bool
deriving Repr, DecidableEq

def ClusterConfig.Validate (c : ClusterConfig) : Option Error :=
  if c.NodeID ≠ "" ∧ c.NodeIDPrefix ≠ "" then
    some "cannot specify both node ID and node ID prefix"
  else
    none

structure ServerConfig where
  GracefulShutdownTimeout : Duration
deriving Repr, DecidableEq

def ServerConfig.Validate (c : ServerConfig) : Option Error :=
  if c.GracefulShutdownTimeout = 0 then
    some "missing grafeful shutdown timeout"
  else
    none

/-- The configuration record.  `gossip.Config`, `auth.Config` and `log.Config`
are declared in other packages; they are the type parameters `G`, `A`, `L`. -/
structure Config (G A L : Type) where
  Proxy : ProxyConfig
  Upstream : UpstreamConfig
  Admin : AdminConfig
  Gossip : G
  Cluster : ClusterConfig
  Auth : A
  Server : ServerConfig
  Log : L

/-- Go `fmt.Errorf(name + ": %w", err)`, by message. -/
def wrap (name : String) (err : Error) : Error := name ++ ": " ++ err

/-- The method `Config.Validate`.  The `Validate` methods of `gossip.Config` and
`log.Config` are the parameters `gossipValidate` and `logValidate`. -/
def Config.Validate {G A L : Type} (gossipValidate : G → Option Error)
    (logValidate : L → Option Error) (c : Config G A L) : Option Error :=
  match c.Proxy.Validate with
  | some err => some (wrap "proxy" err)
  | none =>
  match c.Upstream.Validate with
  | some err => some (wrap "upstream" err)
  | none =>
  match c.Admin.Validate with
  | some err => some (wrap "admin" err)
  | none =>
  match gossipValidate c.Gossip with
  | some err => some (wrap "gossip" err)
  | none =>
  match c.Cluster.Validate with
  | some err => some (wrap "cluster" err)
  | none =>
  match c.Server.Validate with
  | some err => some (wrap "server" err)
  | none =>
  match logValidate c.Log with
  | some err => some (wrap "log" err)
  | none => none

/-- The method `Config.RegisterFlags`, as far as the configuration record is
concerned: every registered flag variable is set to its default value.  The
`RegisterFlags` methods of `auth.Config`, `gossip.Config` and `log.Config` are
the parameters `authFlags`, `gossipFlags` and `logFlags`. -/
def Config.RegisterFlags {G A L : Type} (authFlags : A → A) (gossipFlags : G → G)
    (logFlags : L → L) (c : Config G A L) : Config G A L :=
  { Proxy :=
      { BindAddr := ":8000"
        AdvertiseAddr := ""
        GatewayTimeout := Second * 15 }
    Upstream :=
      { BindAddr := ":8001"
        AdvertiseAddr := "" }
    Admin :=
      { BindAddr := ":8002"
        AdvertiseAddr := "" }
    Server :=
      { GracefulShutdownTimeout := Minute }
    Cluster :=
      { NodeID := ""
        NodeIDPrefix := ""
        Join := []
        AbortIfJoinFails := true }
    Auth := authFlags c.Auth
    Gossip := gossipFlags c.Gossip
    Log := logFlags c.Log }

/-- The sections of the configuration in the order the design document lists
them, each with its name and the result of its own validation. -/
def sectionResults {G A L : Type} (gossipValidate : G → Option Error)
    (logValidate : L → Option Error) (c : Config G A L) : List (String × Option Error) :=
  [ ("proxy", c.Proxy.Validate),
    ("upstream", c.Upstream.Validate),
    ("admin", c.Admin.Validate),
    ("gossip", gossipValidate c.Gossip),
    ("cluster", c.Cluster.Validate),
    ("server", c.Server.Validate),
    ("log", logValidate c.Log) ]

/-- The error of the first failing section of a list, prefixed with the name of
that section; `none` when no section fails. -/
def firstSectionError : List (String × Option Error) → Option Error
  | [] => none
  | (name, some err) :: _ => some (name ++ ": " ++ err)
  | (_, none) :: rest => firstSectionError rest

/-- The conditions under which the design document says validation succeeds. -/
def Accepted {G A L : Type} (gossipValidate : G → Option Error)
    (logValidate : L → Option Error) (c : Config G A L) : Prop :=
  c.Proxy.BindAddr ≠ "" ∧ c.Upstream.BindAddr ≠ "" ∧ c.Admin.BindAddr ≠ "" ∧
  c.Proxy.GatewayTimeout ≠ 0 ∧ c.Server.GracefulShutdownTimeout ≠ 0 ∧
  ¬ (c.Cluster.NodeID ≠ "" ∧ c.Cluster.NodeIDPrefix ≠ "") ∧
  gossipValidate c.Gossip = none ∧ logValidate c.Log = none

end config

/-! ## middleware/metrics.go -/

namespace middleware

/-- Go `strconv.Itoa`. -/
def Itoa (i : Int) : String := toString i

/-- A Prometheus counter vector with the single label `status`: the count of
each label value. -/
abbrev CounterVec := String → Nat

/-- A Prometheus histogram vector with the single label `status`: the samples
observed under each label value, oldest first.  A sample is kept as the integer
number of milliseconds `m`; the value handed to `Observe` is `float64(m) / 1000`. -/
abbrev HistogramVec := String → List Int

/-- The call `v.With(prometheus.Labels("status": label)).Inc()`. -/
def CounterVec.Inc (v : CounterVec) (label : String) : CounterVec :=
  fun l => if l = label then v l + 1 else v l

/-- The call `v.With(prometheus.Labels("status": label)).Observe(float64(ms) / 1000)`. -/
def HistogramVec.Observe (v : HistogramVec) (label : String) (ms : Int) : HistogramVec :=
  fun l => if l = label then v l ++ [ms] else v l

/-- Go `Duration.Milliseconds`: integer division by 10^6, truncated toward zero. -/
def Milliseconds (d : Duration) : Int := Int.tdiv d 1000000

/-- The two vectors that `NewMetrics` creates and registers. -/
structure Metrics where
  requests : CounterVec
  requestLatency : HistogramVec

/-- The vectors as `NewMetrics` creates them: nothing counted, nothing observed. -/
def NewMetrics.vectors : Metrics :=
  { requests := fun _ => 0
    requestLatency := fun _ => [] }

/-- What `c.Next()` does, as seen by the metrics middleware: the remaining
handlers return, after which `c.Writer.Status()` is `status` and
`time.Since(start)` is `since`; or a panic unwinds through the middleware. -/
inductive Next where
  | returned (status : Int) (since : Duration)
  | panicked
deriving Repr, DecidableEq

/-- The handler function returned by `NewMetrics`, as a transformer of the two
vectors. -/
def NewMetrics.handler (m : Metrics) : Next → Metrics
  | .panicked => m
  | .returned status since =>
    let requests := m.requests.Inc (Itoa status)
    let requestLatency := m.requestLatency.Observe (Itoa status) (Milliseconds since)
    { requests := requests
      requestLatency := requestLatency }

end middleware

/-! ## Go `context` -/

/-- The cancel functions that exist in the upstream server: the one made by
`NewServer`, and the one a request makes for its token-expiry deadline. -/
inductive CancelFunc where
  | server
  | request (id : Nat)
deriving Repr, DecidableEq

/-- Go `context.Context` values built from `Background`, `WithCancel` and
`WithDeadline`. -/
inductive Context where
  | background
  | cancelCtx (parent : Context) (cancel : CancelFunc)
  | timerCtx (parent : Context) (deadline : Time) (cancel : CancelFunc)
deriving Repr, DecidableEq

/-- Go `Context.Deadline`; `none` when no deadline is set. -/
def Context.Deadline : Context → Option Time
  | .background => none
  | .cancelCtx parent _ => parent.Deadline
  | .timerCtx _ deadline _ => some deadline

/-- The context a derived context was derived from. -/
def Context.parent? : Context → Option Context
  | .background => none
  | .cancelCtx parent _ => some parent
  | .timerCtx parent _ _ => some parent

/-- Go `context.WithCancel`. -/
def WithCancel (parent : Context) (cancel : CancelFunc) : Context :=
  .cancelCtx parent cancel

/-- Go `context.WithDeadline`: when the parent deadline is already earlier than
`d` the result is `WithCancel(parent)`. -/
def WithDeadline (parent : Context) (d : Time) (cancel : CancelFunc) : Context :=
  match parent.Deadline with
  | some cur => if cur < d then WithCancel parent cancel else .timerCtx parent d cancel
  | none => .timerCtx parent d cancel

/-- Whether a context is cancelled (its `Done` channel is closed) at time `now`,
given the cancel functions that have been called: a context is done when its
own cancel function was called, when its deadline has passed, or when its
parent is done. -/
def Context.Done (cancelled : List CancelFunc) (now : Time) : Context → Bool
  | .background => false
  | .cancelCtx parent cancel =>
    decide (cancel ∈ cancelled) || parent.Done cancelled now
  | .timerCtx parent deadline cancel =>
    decide (cancel ∈ cancelled) || decide (deadline ≤ now) || parent.Done cancelled now

/-! ## upstream/server.go -/

namespace upstream

/-- A `*websocket.Conn` as returned by a successful upgrade. -/
structure WebsocketConn where
  id : Nat
deriving Repr, DecidableEq

/-- The value of `rpc.NewStream(conn.NewWebsocketConn(wsConn), handler, logger)`. -/
structure Stream where
  conn : WebsocketConn
deriving Repr, DecidableEq

def NewStream (wsConn : WebsocketConn) : Stream :=
  { conn := wsConn }

/-- The value of `proxy.NewRPCConn(endpointID, stream)`. -/
structure RPCConn where
  endpointID : String
  stream : Stream
deriving Repr, DecidableEq

def NewRPCConn (endpointID : String) (stream : Stream) : RPCConn :=
  { endpointID := endpointID
    stream := stream }

/-- The fields of `auth.EndpointToken` that the server reads. -/
structure EndpointToken where
  Endpoints : List String
  Expiry : Time
deriving Repr, DecidableEq

def StatusUnauthorized : Nat := 401
def StatusInternalServerError : Nat := 500

/-- The calls a request handler makes on its collaborators. -/
inductive Event where
  /-- The call `s.logger.Warn(msg, ...)`. -/
  | warn (msg : String)
  /-- The call `s.logger.Debug(msg, ...)`. -/
  | debug (msg : String)
  /-- The call `s.logger.Error(msg, ...)`. -/
  | error (msg : String)
  /-- The call `c.JSON(status, gin.H(body))`. -/
  | json (status : Nat) (body : List (String × String))
  /-- The call `c.AbortWithStatus(status)`. -/
  | abortWithStatus (status : Nat)
  /-- The call `s.websocketUpgrader.Upgrade(c.Writer, c.Request, nil)`. -/
  | upgrade
  /-- The call `rpc.NewStream(...)`, with the stream it returns. -/
  | newStream (stream : Stream)
  /-- The call `s.proxy.AddConn(conn)`. -/
  | addConn (conn : RPCConn)
  /-- The call `s.proxy.RemoveConn(conn)`. -/
  | removeConn (conn : RPCConn)
  /-- The call `stream.Monitor(ctx, heartbeatInterval, heartbeatTimeout)`. -/
  | monitor (stream : Stream) (ctx : Context) (heartbeatInterval heartbeatTimeout : Duration)
  /-- The call of a cancel function. -/
  | cancel (f : CancelFunc)
  /-- The call `stream.Close()`. -/
  | close (stream : Stream)
  /-- The call `c.Error(err)` made by the gin recovery handler. -/
  | contextError (err : String)
  /-- The call `c.Abort()` made by the gin recovery handler. -/
  | abort
deriving Repr, DecidableEq

/-- The result of `s.websocketUpgrader.Upgrade`. -/
inductive UpgradeResult where
  | ok (wsConn : WebsocketConn)
  | err (e : Error)
deriving Repr, DecidableEq

/-- How the call of `stream.Monitor` ends: it returns `nil`, it returns an
error, or it panics. -/
inductive MonitorResult where
  | nil
  | err (e : Error)
  | panic (v : String)
deriving Repr, DecidableEq

/-- What `listenerRoute` reads from its `*gin.Context` and gets back from its
collaborators. -/
structure GinContext where
  /-- Identity of the request. -/
  id : Nat
  /-- The value of `c.Param("endpointID")`. -/
  endpointID : String
  /-- The value of `c.Get(middleware.TokenContextKey)`; `none` when not set. -/
  token : Option EndpointToken
  /-- What `Upgrade` returns if it is called. -/
  upgrade : UpgradeResult
  /-- How `Monitor` ends if it is called. -/
  monitor : MonitorResult
deriving Repr, DecidableEq

/-- The handlers that `NewServer` puts on the route of `listenerRoute`. -/
inductive Handler where
  /-- The handler `tokenMiddleware.VerifyEndpointToken`. -/
  | verifyEndpointToken
  /-- The handler `gin.CustomRecoveryWithWriter(nil, server.panicRoute)`. -/
  | recovery
  /-- The handler `middleware.NewLogger(logger)`. -/
  | logger
  /-- The handler `middleware.NewMetrics("upstream", registry)`. -/
  | metrics
  /-- The handler `s.listenerRoute`. -/
  | listenerRoute
deriving Repr, DecidableEq

/-- The fields of `Server` that the embedded methods use.  `router` is the
handler chain of the route `/pico/v1/listener/:endpointID`. -/
structure Server where
  router : List Handler
  shutdownCtx : Context
  shutdownCancel : CancelFunc
deriving Repr, DecidableEq

/-- The function `NewServer`.  `verifier` and `registry` say whether the
arguments of these names are non-nil. -/
def NewServer (verifier registry : Bool) : Server :=
  let shutdownCtx := WithCancel .background .server
  let shutdownCancel := CancelFunc.server
  let router : List Handler := []
  let router := if verifier then router ++ [.verifyEndpointToken] else router
  let router := router ++ [.recovery]
  let router := router ++ [.logger]
  let router := if registry then router ++ [.metrics] else router
  -- registerRoutes
  let router := router ++ [.listenerRoute]
  { router := router
    shutdownCtx := shutdownCtx
    shutdownCancel := shutdownCancel }

/-- The part of the process state that `Shutdown` and the contexts depend on:
the cancel functions called so far, and whether `httpServer.Shutdown` was
called. -/
structure Process where
  cancelled : List CancelFunc
  httpServerShutdown : Bool
deriving Repr, DecidableEq

/-- The state of a process in which no cancel function has been called. -/
def Process.start : Process :=
  { cancelled := []
    httpServerShutdown := false }

/-- The method `Server.Shutdown`: its body is the single call
`s.httpServer.Shutdown(ctx)`. -/
def Server.Shutdown (_s : Server) (p : Process) : Process :=
  { p with httpServerShutdown := true }

/-- What running a handler (or a chain of handlers) did: the calls made, and
the value of a panic that is still unwinding when it ends. -/
structure Run where
  events : List Event
  panic : Option String
deriving Repr, DecidableEq

/-- The method `Server.listenerRoute`, on the paths where every call it makes
other than `Monitor` returns; `Server.listenerRouteWith` below has the exits
through a panic of any other call as well.  `EndpointPermitted` is the method of
that name of `auth.EndpointToken`.  Deferred calls are pushed on `defers` and
run, last pushed first, when the function ends. -/
def Server.listenerRoute (EndpointPermitted : EndpointToken → String → Bool)
    (s : Server) (c : GinContext) : Run :=
  let endpointID := c.endpointID
  let rejected :=
    match c.token with
    | some endpointToken => !EndpointPermitted endpointToken endpointID
    | none => false
  if rejected then
    { events :=
        [ .warn "endpoint not permitted",
          .json StatusUnauthorized [("error", "endpoint not permitted")] ]
      panic := none }
  else
    match c.upgrade with
    | .err _ =>
      { events := [.upgrade, .warn "failed to upgrade websocket"]
        panic := none }
    | .ok wsConn =>
      let stream := NewStream wsConn
      let defers : List Event := [.close stream]
      let conn := NewRPCConn endpointID stream
      let defers := Event.removeConn conn :: defers
      let ctx := s.shutdownCtx
      let (ctx, defers) :=
        match c.token with
        | some endpointToken =>
          if !endpointToken.Expiry.IsZero then
            (WithDeadline ctx endpointToken.Expiry (.request c.id),
              Event.cancel (.request c.id) :: defers)
          else
            (ctx, defers)
        | none => (ctx, defers)
      let body : List Event :=
        [ .upgrade,
          .newStream stream,
          .debug "listener connected",
          .addConn conn,
          .monitor stream ctx (Second * 10) (Second * 10) ]
      match c.monitor with
      | .nil =>
        { events := body ++ defers
          panic := none }
      | .err _ =>
        { events := body ++ [.debug "listener disconnected"] ++ defers
          panic := none }
      | .panic v =>
        { events := body ++ defers
          panic := some v }

/-- The value with which a call panics under the oracle `panics`; `none` when
the call returns.  A cancel function of package `context` does not panic. -/
def raisedBy (panics : Event → Option String) : Event → Option String
  | .cancel _ => none
  | ev => panics ev

/-- Running the deferred calls of a function that is ending, last pushed first:
`defers` has the last pushed call at its head, `r` is what the function did so
far and the panic it is ending with, if any.  Every deferred call is made;
a deferred call that panics replaces the panic that is unwinding, and the
remaining deferred calls still run. -/
def unwind (panics : Event → Option String) : List Event → Run → Run
  | [], r => r
  | d :: ds, r =>
    unwind panics ds
      { events := r.events ++ [d]
        panic :=
          match raisedBy panics d with
          | some v => some v
          | none => r.panic }

/-- The method `Server.listenerRoute` with every exit after a successful
upgrade.  `panics ev` is the value with which the call `ev` panics (`none` when
it returns); how `Monitor` ends is `c.monitor`.  A call that panics ends the
body there, and the calls deferred up to that point run. -/
def Server.listenerRouteWith (panics : Event → Option String)
    (EndpointPermitted : EndpointToken → String → Bool)
    (s : Server) (c : GinContext) : Run :=
  let endpointID := c.endpointID
  let rejected :=
    match c.token with
    | some endpointToken => !EndpointPermitted endpointToken endpointID
    | none => false
  if rejected then
    { events :=
        [ .warn "endpoint not permitted",
          .json StatusUnauthorized [("error", "endpoint not permitted")] ]
      panic := none }
  else
    match c.upgrade with
    | .err _ =>
      { events := [.upgrade, .warn "failed to upgrade websocket"]
        panic := none }
    | .ok wsConn =>
      let stream := NewStream wsConn
      match raisedBy panics (.newStream stream) with
      | some v =>
        { events := [.upgrade, .newStream stream]
          panic := some v }
      | none =>
      let defers : List Event := [.close stream]
      match raisedBy panics (.debug "listener connected") with
      | some v =>
        unwind panics defers
          { events := [.upgrade, .newStream stream, .debug "listener connected"]
            panic := some v }
      | none =>
      let conn := NewRPCConn endpointID stream
      match raisedBy panics (.addConn conn) with
      | some v =>
        unwind panics defers
          { events :=
              [ .upgrade,
                .newStream stream,
                .debug "listener connected",
                .addConn conn ]
            panic := some v }
      | none =>
      let defers := Event.removeConn conn :: defers
      let ctx := s.shutdownCtx
      let (ctx, defers) :=
        match c.token with
        | some endpointToken =>
          if !endpointToken.Expiry.IsZero then
            (WithDeadline ctx endpointToken.Expiry (.request c.id),
              Event.cancel (.request c.id) :: defers)
          else
            (ctx, defers)
        | none => (ctx, defers)
      let body : List Event :=
        [ .upgrade,
          .newStream stream,
          .debug "listener connected",
          .addConn conn,
          .monitor stream ctx (Second * 10) (Second * 10) ]
      match c.monitor with
      | .nil =>
        unwind panics defers
          { events := body
            panic := none }
      | .err _ =>
        unwind panics defers
          { events := body ++ [.debug "listener disconnected"]
            panic := raisedBy panics (.debug "listener disconnected") }
      | .panic v =>
        unwind panics defers
          { events := body
            panic := some v }

/-- The method `Server.panicRoute`. -/
def Server.panicRoute (_s : Server) (_err : String) : List Event :=
  [ .error "handler panic",
    .abortWithStatus StatusInternalServerError ]

/-- Serving one request through a gin handler chain, as far as panics go.
`raised h` is the value with which handler `h` panics when it runs (`none` when
it does not panic).  Handlers run in the order of the chain, each one inside
the call frames of those before it.  The recovery handler defers a function
that recovers a panic, then runs the rest of the chain; so it sees exactly the
panics of the handlers after it.  `brokenPipe v` says whether the panic value
`v` is a `*net.OpError` of a broken pipe or a connection reset: for such a
value the recovery handler calls `c.Error` and `c.Abort` and not the recovery
function; every other value it passes to `panicRoute`. -/
def Server.serveWith (s : Server) (brokenPipe : String → Bool)
    (raised : Handler → Option String) : List Handler → Run
  | [] =>
    { events := []
      panic := none }
  | .recovery :: rest =>
    let r := s.serveWith brokenPipe raised rest
    match r.panic with
    | some err =>
      if brokenPipe err then
        { events := r.events ++ [.contextError err, .abort]
          panic := none }
      else
        { events := r.events ++ s.panicRoute err
          panic := none }
    | none => r
  | h :: rest =>
    match raised h with
    | some v =>
      { events := []
        panic := some v }
    | none => s.serveWith brokenPipe raised rest

/-- Serving one request through a gin handler chain when no panic value is a
broken-pipe or connection-reset network error (`Server.serveWith` with
`brokenPipe` false everywhere): the recovery handler passes every panic it
recovers to `panicRoute`.  `raised h` is the value with which handler `h`
panics when it runs (`none` when it does not panic). -/
def Server.serve (s : Server) (raised : Handler → Option String) : List Handler → Run
  | [] =>
    { events := []
      panic := none }
  | .recovery :: rest =>
    let r := s.serve raised rest
    match r.panic with
    | some err =>
      { events := r.events ++ s.panicRoute err
        panic := none }
    | none => r
  | h :: rest =>
    match raised h with
    | some v =>
      { events := []
        panic := some v }
    | none => s.serve raised rest

/-! ### Readings of a list of events -/

/-- The connections passed to `AddConn`, in call order. -/
def added : List Event → List RPCConn
  | [] => []
  | .addConn conn :: es => conn :: added es
  | _ :: es => added es

/-- The connections passed to `RemoveConn`, in call order. -/
def removed : List Event → List RPCConn
  | [] => []
  | .removeConn conn :: es => conn :: removed es
  | _ :: es => removed es

/-- The contexts passed to `Monitor`, in call order. -/
def monitored : List Event → List Context
  | [] => []
  | .monitor _ ctx _ _ :: es => ctx :: monitored es
  | _ :: es => monitored es

/-- The connections added and not yet removed after the events, starting from
the connections `live`. -/
def outstanding (live : List RPCConn) : List Event → List RPCConn
  | [] => live
  | .addConn conn :: es => outstanding (conn :: live) es
  | .removeConn conn :: es => outstanding (live.erase conn) es
  | _ :: es => outstanding live es

/-- No `stream.Close()` in the events happens while a connection over that
stream is added and not yet removed, starting from the connections `live`. -/
def closesOnlyRemoved (live : List RPCConn) : List Event → Bool
  | [] => true
  | .addConn conn :: es => closesOnlyRemoved (conn :: live) es
  | .removeConn conn :: es => closesOnlyRemoved (live.erase conn) es
  | .close stream :: es =>
    live.all (fun conn => decide (conn.stream ≠ stream)) && closesOnlyRemoved live es
  | _ :: es => closesOnlyRemoved live es

/-- The event is a write of a status or body by the handler itself. -/
def Event.isResponse : Event → Bool
  | .json _ _ => true
  | .abortWithStatus _ => true
  | _ => false

/-- The event is a call on the proxy, on a stream, or the making of a stream. -/
def Event.isConnection : Event → Bool
  | .newStream _ => true
  | .addConn _ => true
  | .removeConn _ => true
  | .monitor _ _ _ _ => true
  | .close _ => true
  | _ => false

/-- The event is one of the three teardown calls. -/
def Event.isTeardown : Event → Bool
  | .cancel _ => true
  | .removeConn _ => true
  | .close _ => true
  | _ => false

/-- The request passes the authorization check of `listenerRoute`. -/
def Authorized (EndpointPermitted : EndpointToken → String → Bool) (c : GinContext) : Prop :=
  ∀ t, c.token = some t → EndpointPermitted t c.endpointID = true

/-- The token of the request, when it carries an expiry. -/
def expiringToken (c : GinContext) : Option EndpointToken :=
  match c.token with
  | some t => if t.Expiry = 0 then none else some t
  | none => none

/-- The context that the design document says `Monitor` is bound to: the
shutdown context with the expiry of the token as deadline when the token has
one, the shutdown context itself otherwise. -/
def monitorContext (s : Server) (c : GinContext) : Context :=
  match expiringToken c with
  | some t => WithDeadline s.shutdownCtx t.Expiry (.request c.id)
  | none => s.shutdownCtx

/-- The teardown calls in the order the design document gives them. -/
def teardown (c : GinContext) (conn : RPCConn) : List Event :=
  (match expiringToken c with
    | some _ => [Event.cancel (.request c.id)]
    | none => []) ++
  [.removeConn conn, .close conn.stream]

/-! ### Example inputs -/

/-- An instance of `EndpointPermitted` for the examples: the token permits
the endpoints it lists. -/
def permitsListed (t : EndpointToken) (endpointID : String) : Bool :=
  decide (endpointID ∈ t.Endpoints)

/-- A request for "svc-2" with a token that lists only "svc-1". -/
def forbiddenRequest : GinContext :=
  { id := 1
    endpointID := "svc-2"
    token := some { Endpoints := ["svc-1"], Expiry := 0 }
    upgrade := .ok { id := 7 }
    monitor := .nil }

/-- A request without token whose upgrade fails. -/
def failedUpgradeRequest : GinContext :=
  { id := 2
    endpointID := "svc-1"
    token := none
    upgrade := .err "bad handshake"
    monitor := .nil }

/-- A request without token whose upgrade succeeds and whose `Monitor` returns
an error. -/
def plainRequest : GinContext :=
  { id := 3
    endpointID := "svc-1"
    token := none
    upgrade := .ok { id := 7 }
    monitor := .err "heartbeat timeout" }

/-- A request whose token lists "svc-1" and expires at instant 5000, whose
upgrade succeeds and whose `Monitor` panics. -/
def expiringRequest : GinContext :=
  { id := 4
    endpointID := "svc-1"
    token := some { Endpoints := ["svc-1"], Expiry := 5000 }
    upgrade := .ok { id := 7 }
    monitor := .panic "boom" }

/-- A panic oracle for the examples: `AddConn` panics (as it does on a nil
`Proxy`), every other call returns. -/
def addConnPanics : Event → Option String
  | .addConn _ => some "nil pointer dereference"
  | _ => none

/-- A panic oracle for the examples: `RemoveConn` panics, every other call
returns. -/
def removeConnPanics : Event → Option String
  | .removeConn _ => some "not registered"
  | _ => none

end upstream

/-! ### Example configuration -/

namespace config

/-- A configuration with an empty proxy bind address and a zero gateway
timeout; the gossip, auth and log sections are trivial. -/
def emptyProxyConfig : Config Unit Unit Unit :=
  { Proxy := { BindAddr := "", AdvertiseAddr := "", GatewayTimeout := 0 }
    Upstream := { BindAddr := ":8001", AdvertiseAddr := "" }
    Admin := { BindAddr := ":8002", AdvertiseAddr := "" }
    Gossip := ()
    Cluster := { NodeID := "", NodeIDPrefix := "", Join := [], AbortIfJoinFails := true }
    Auth := ()
    Server := { GracefulShutdownTimeout := 0 }
    Log := () }

end config

/-! ## Configuration validation -/

section ConfigTheorems

open config

/-- C7: `Config.Validate` returns nil exactly when the three bind addresses are
non-empty, the gateway timeout and the graceful shutdown timeout are not zero,
node ID and node ID prefix are not both given, and the gossip and log sections
validate; in every case its result is the error of the first failing section in
the order proxy, upstream, admin, gossip, cluster, server, log, prefixed with
the name of that section; and an empty proxy bind address gives
"proxy: missing bind addr" whatever the gateway timeout is. -/
theorem C7_config_validate {G A L : Type} (gossipValidate : G → Option Error)
    (logValidate : L → Option Error) (c : Config G A L) :
    (Config.Validate gossipValidate logValidate c = none ↔
      Accepted gossipValidate logValidate c) ∧
    Config.Validate gossipValidate logValidate c =
      firstSectionError (sectionResults gossipValidate logValidate c) ∧
    (c.Proxy.BindAddr = "" →
      Config.Validate gossipValidate logValidate c = some "proxy: missing bind addr") := by
  refine ⟨?_, ?_, ?_⟩
  · unfold Config.Validate Accepted ProxyConfig.Validate UpstreamConfig.Validate
      AdminConfig.Validate ClusterConfig.Validate ServerConfig.Validate
    by_cases h1 : c.Proxy.BindAddr = ""
    · simp [h1]
    by_cases h2 : c.Proxy.GatewayTimeout = 0
    · simp [h1, h2]
    by_cases h3 : c.Upstream.BindAddr = ""
    · simp [h1, h2, h3]
    by_cases h4 : c.Admin.BindAddr = ""
    · simp [h1, h2, h3, h4]
    cases h5 : gossipValidate c.Gossip with
    | some e => simp [h1, h2, h3, h4]
    | none =>
      by_cases h6 : c.Cluster.NodeID = "" <;> by_cases h7 : c.Cluster.NodeIDPrefix = "" <;>
        by_cases h8 : c.Server.GracefulShutdownTimeout = 0 <;>
        cases h9 : logValidate c.Log <;> simp [h1, h2, h3, h4, h6, h7, h8]
  · unfold Config.Validate sectionResults wrap
    cases c.Proxy.Validate <;> cases c.Upstream.Validate <;> cases c.Admin.Validate <;>
      cases gossipValidate c.Gossip <;> cases c.Cluster.Validate <;>
      cases c.Server.Validate <;> cases logValidate c.Log <;> rfl
  · intro h
    simp [Config.Validate, ProxyConfig.Validate, h, wrap]

/-- C7, at a configuration with an empty proxy bind address and a zero gateway
timeout: the bind address is reported. -/
theorem C7_config_validate_witness :
    emptyProxyConfig.Proxy.BindAddr = "" ∧
    Config.Validate (fun _ => none) (fun _ => none) emptyProxyConfig
      = some "proxy: missing bind addr" :=
  ⟨rfl, (C7_config_validate (fun _ => none) (fun _ => none) emptyProxyConfig).2.2 rfl⟩

/-- C10: after `Config.RegisterFlags` the flag variables hold the defaults
that were registered (":8000", 15 s, ":8001", ":8002", 1 min, "" and ""), and
with them the proxy, upstream, admin, cluster and server sections all
validate. -/
theorem C10_defaults_validate {G A L : Type} (authFlags : A → A) (gossipFlags : G → G)
    (logFlags : L → L) (c : Config G A L) :
    ((Config.RegisterFlags authFlags gossipFlags logFlags c).Proxy.BindAddr = ":8000" ∧
      (Config.RegisterFlags authFlags gossipFlags logFlags c).Proxy.GatewayTimeout
        = 15 * 1000000000 ∧
      (Config.RegisterFlags authFlags gossipFlags logFlags c).Upstream.BindAddr = ":8001" ∧
      (Config.RegisterFlags authFlags gossipFlags logFlags c).Admin.BindAddr = ":8002" ∧
      (Config.RegisterFlags authFlags gossipFlags logFlags c).Server.GracefulShutdownTimeout
        = 60 * 1000000000 ∧
      (Config.RegisterFlags authFlags gossipFlags logFlags c).Cluster.NodeID = "" ∧
      (Config.RegisterFlags authFlags gossipFlags logFlags c).Cluster.NodeIDPrefix = "") ∧
    (Config.RegisterFlags authFlags gossipFlags logFlags c).Proxy.Validate = none ∧
    (Config.RegisterFlags authFlags gossipFlags logFlags c).Upstream.Validate = none ∧
    (Config.RegisterFlags authFlags gossipFlags logFlags c).Admin.Validate = none ∧
    (Config.RegisterFlags authFlags gossipFlags logFlags c).Cluster.Validate = none ∧
    (Config.RegisterFlags authFlags gossipFlags logFlags c).Server.Validate = none := by
  refine ⟨⟨rfl, rfl, rfl, rfl, rfl, rfl, rfl⟩, rfl, rfl, rfl, rfl, rfl⟩

end ConfigTheorems

/-! ## Metrics middleware -/

section MetricsTheorems

open middleware

/-- C9: when the handlers after the metrics middleware return normally with
final status code `status`, the middleware adds exactly 1 to the request
counter of the label `Itoa status`, appends exactly one latency sample to the
histogram of that same label, and leaves the counter and the histogram of every
other label as they were. -/
theorem C9_metrics_frame (m : Metrics) (status : Int) (since : Duration) :
    (NewMetrics.handler m (.returned status since)).requests (Itoa status)
      = m.requests (Itoa status) + 1 ∧
    (NewMetrics.handler m (.returned status since)).requestLatency (Itoa status)
      = m.requestLatency (Itoa status) ++ [Milliseconds since] ∧
    ((NewMetrics.handler m (.returned status since)).requestLatency (Itoa status)).length
      = (m.requestLatency (Itoa status)).length + 1 ∧
    ∀ label, label ≠ Itoa status →
      (NewMetrics.handler m (.returned status since)).requests label = m.requests label ∧
      (NewMetrics.handler m (.returned status since)).requestLatency label
        = m.requestLatency label := by
  refine ⟨?_, ?_, ?_, ?_⟩
  · simp [NewMetrics.handler, CounterVec.Inc]
  · simp [NewMetrics.handler, HistogramVec.Observe]
  · simp [NewMetrics.handler, HistogramVec.Observe]
  · intro label h
    simp [NewMetrics.handler, CounterVec.Inc, HistogramVec.Observe, h]

/-- C9, at a request that ends with status 401 after 1.5 ms on fresh vectors:
"401" is counted once and has one sample of 1 ms, "200" is untouched. -/
theorem C9_metrics_frame_witness :
    Itoa 401 = "401" ∧
    (NewMetrics.handler NewMetrics.vectors (.returned 401 1500000)).requests "401" = 1 ∧
    (NewMetrics.handler NewMetrics.vectors (.returned 401 1500000)).requestLatency "401" = [1] ∧
    (NewMetrics.handler NewMetrics.vectors (.returned 401 1500000)).requests "200" = 0 ∧
    (NewMetrics.handler NewMetrics.vectors (.returned 401 1500000)).requestLatency "200" = [] := by
  have h := C9_metrics_frame NewMetrics.vectors 401 1500000
  have e : Itoa 401 = "401" := by decide
  rw [e] at h
  exact ⟨e, h.1, h.2.1, (h.2.2.2 "200" (by decide)).1, (h.2.2.2 "200" (by decide)).2⟩

end MetricsTheorems

/-! ## Upstream server: `listenerRoute` -/

section ListenerTheorems

open upstream

theorem listenerRoute_rejected (EndpointPermitted : EndpointToken → String → Bool)
    (s : Server) (c : GinContext) (t : EndpointToken) (ht : c.token = some t)
    (hp : EndpointPermitted t c.endpointID = false) :
    s.listenerRoute EndpointPermitted c =
      { events :=
          [ .warn "endpoint not permitted",
            .json StatusUnauthorized [("error", "endpoint not permitted")] ]
        panic := none } := by
  simp [Server.listenerRoute, ht, hp]

theorem listenerRoute_upgrade_err (EndpointPermitted : EndpointToken → String → Bool)
    (s : Server) (c : GinContext) (e : Error) (ha : Authorized EndpointPermitted c)
    (hu : c.upgrade = .err e) :
    s.listenerRoute EndpointPermitted c =
      { events := [.upgrade, .warn "failed to upgrade websocket"]
        panic := none } := by
  unfold Authorized at ha
  cases ht : c.token with
  | none => simp [Server.listenerRoute, ht, hu]
  | some t => simp [Server.listenerRoute, ht, hu, ha t ht]

theorem listenerRoute_upgraded (EndpointPermitted : EndpointToken → String → Bool)
    (s : Server) (c : GinContext) (ws : WebsocketConn) (ha : Authorized EndpointPermitted c)
    (hu : c.upgrade = .ok ws) :
    (s.listenerRoute EndpointPermitted c).events =
      [ .upgrade,
        .newStream (NewStream ws),
        .debug "listener connected",
        .addConn (NewRPCConn c.endpointID (NewStream ws)),
        .monitor (NewStream ws) (monitorContext s c) (Second * 10) (Second * 10) ] ++
      (match c.monitor with
        | .err _ => [.debug "listener disconnected"]
        | _ => []) ++
      teardown c (NewRPCConn c.endpointID (NewStream ws)) := by
  unfold Authorized at ha
  cases ht : c.token with
  | none =>
    cases hm : c.monitor <;>
      simp [Server.listenerRoute, ht, hu, hm, monitorContext, teardown, expiringToken,
        NewRPCConn]
  | some t =>
    by_cases hz : t.Expiry = 0 <;> cases hm : c.monitor <;>
      simp [Server.listenerRoute, ht, hu, hm, ha t ht, monitorContext, teardown,
        expiringToken, NewRPCConn, Time.IsZero, hz]

theorem rejected_of_not_authorized (EndpointPermitted : EndpointToken → String → Bool)
    (c : GinContext) (h : ¬ Authorized EndpointPermitted c) :
    ∃ t, c.token = some t ∧ EndpointPermitted t c.endpointID = false := by
  unfold Authorized at h
  push_neg at h
  obtain ⟨t, ht, hp⟩ := h
  exact ⟨t, ht, by simpa using hp⟩

/-- With a panic oracle under which every call returns, `listenerRouteWith` is
`listenerRoute`. -/
theorem listenerRouteWith_returns (EndpointPermitted : EndpointToken → String → Bool)
    (s : Server) (c : GinContext) :
    s.listenerRouteWith (fun _ => none) EndpointPermitted c
      = s.listenerRoute EndpointPermitted c := by
  cases ht : c.token with
  | none =>
    cases hu : c.upgrade <;> cases hm : c.monitor <;>
      simp [Server.listenerRouteWith, Server.listenerRoute, ht, hu, hm, unwind, raisedBy]
  | some t =>
    by_cases hz : t.Expiry = 0 <;> cases hp : EndpointPermitted t c.endpointID <;>
      cases hu : c.upgrade <;> cases hm : c.monitor <;>
      simp [Server.listenerRouteWith, Server.listenerRoute, ht, hu, hm, hp, hz, unwind,
        raisedBy, Time.IsZero]

/-- The events of `listenerRouteWith` once `AddConn` has returned: whichever
later call panics, the calls made are the same. -/
theorem listenerRouteWith_added (panics : Event → Option String)
    (EndpointPermitted : EndpointToken → String → Bool)
    (s : Server) (c : GinContext) (ws : WebsocketConn) (ha : Authorized EndpointPermitted c)
    (hu : c.upgrade = .ok ws)
    (hs : panics (.newStream (NewStream ws)) = none)
    (hd : panics (.debug "listener connected") = none)
    (hadd : panics (.addConn (NewRPCConn c.endpointID (NewStream ws))) = none) :
    (s.listenerRouteWith panics EndpointPermitted c).events =
      [ .upgrade,
        .newStream (NewStream ws),
        .debug "listener connected",
        .addConn (NewRPCConn c.endpointID (NewStream ws)),
        .monitor (NewStream ws) (monitorContext s c) (Second * 10) (Second * 10) ] ++
      (match c.monitor with
        | .err _ => [.debug "listener disconnected"]
        | _ => []) ++
      teardown c (NewRPCConn c.endpointID (NewStream ws)) := by
  unfold Authorized at ha
  simp only [NewRPCConn] at hadd
  cases ht : c.token with
  | none =>
    cases hm : c.monitor <;>
      simp [Server.listenerRouteWith, ht, hu, hm, hs, hd, hadd, unwind, raisedBy,
        monitorContext, teardown, expiringToken, NewRPCConn]
  | some t =>
    by_cases hz : t.Expiry = 0 <;> cases hm : c.monitor <;>
      simp [Server.listenerRouteWith, ht, hu, hm, hs, hd, hadd, ha t ht, unwind, raisedBy,
        monitorContext, teardown, expiringToken, NewRPCConn, Time.IsZero, hz]

/-- C1: `listenerRoute` answers 401 with the body "error": "endpoint not
permitted" exactly when the request context holds a token whose
`EndpointPermitted(endpointID)` is false; and then the handler does nothing but
log and answer: the upgrade is not attempted, `AddConn` and `RemoveConn` are not
called, and the set of registered connections is what it was. -/
theorem C1_unauthorized_iff (EndpointPermitted : EndpointToken → String → Bool)
    (s : Server) (c : GinContext) :
    ((∃ body, Event.json StatusUnauthorized body ∈ (s.listenerRoute EndpointPermitted c).events) ↔
      ∃ t, c.token = some t ∧ EndpointPermitted t c.endpointID = false) ∧
    ((∃ t, c.token = some t ∧ EndpointPermitted t c.endpointID = false) →
      (s.listenerRoute EndpointPermitted c).events =
        [ .warn "endpoint not permitted",
          .json 401 [("error", "endpoint not permitted")] ] ∧
      (s.listenerRoute EndpointPermitted c).panic = none ∧
      Event.upgrade ∉ (s.listenerRoute EndpointPermitted c).events ∧
      added (s.listenerRoute EndpointPermitted c).events = [] ∧
      removed (s.listenerRoute EndpointPermitted c).events = [] ∧
      ∀ live, outstanding live (s.listenerRoute EndpointPermitted c).events = live) := by
  constructor
  · constructor
    · rintro ⟨body, hb⟩
      by_contra hn
      have ha : Authorized EndpointPermitted c := by
        intro t ht
        by_contra hp
        exact hn ⟨t, ht, by simpa using hp⟩
      cases hu : c.upgrade with
      | err e =>
        rw [listenerRoute_upgrade_err EndpointPermitted s c e ha hu] at hb
        simp at hb
      | ok ws =>
        rw [listenerRoute_upgraded EndpointPermitted s c ws ha hu] at hb
        cases hm : c.monitor <;> cases he : expiringToken c <;>
          simp [hm, he, teardown] at hb
    · rintro ⟨t, ht, hp⟩
      rw [listenerRoute_rejected EndpointPermitted s c t ht hp]
      exact ⟨[("error", "endpoint not permitted")], by simp⟩
  · rintro ⟨t, ht, hp⟩
    rw [listenerRoute_rejected EndpointPermitted s c t ht hp]
    simp [StatusUnauthorized, added, removed, outstanding]

/-- C1, at a request for "svc-2" whose token permits only "svc-1". -/
theorem C1_unauthorized_iff_witness :
    (∃ t, forbiddenRequest.token = some t ∧
      permitsListed t forbiddenRequest.endpointID = false) ∧
    ((NewServer true true).listenerRoute permitsListed forbiddenRequest).events =
      [ .warn "endpoint not permitted",
        .json 401 [("error", "endpoint not permitted")] ] :=
  ⟨⟨{ Endpoints := ["svc-1"], Expiry := 0 }, rfl, by decide⟩,
    ((C1_unauthorized_iff permitsListed (NewServer true true) forbiddenRequest).2
      ⟨{ Endpoints := ["svc-1"], Expiry := 0 }, rfl, by decide⟩).1⟩

/-- C5: when `listenerRoute` calls the upgrade and the upgrade returns an error,
the handler logs a warning and returns: it writes no status or body, makes no
stream, and calls none of `AddConn`, `RemoveConn`, `Monitor`, `Close`. -/
theorem C5_upgrade_error_ends (EndpointPermitted : EndpointToken → String → Bool)
    (s : Server) (c : GinContext) (e : Error)
    (hcalled : Event.upgrade ∈ (s.listenerRoute EndpointPermitted c).events)
    (hu : c.upgrade = .err e) :
    (s.listenerRoute EndpointPermitted c).events =
      [.upgrade, .warn "failed to upgrade websocket"] ∧
    (s.listenerRoute EndpointPermitted c).panic = none ∧
    (∀ ev ∈ (s.listenerRoute EndpointPermitted c).events,
      ev.isResponse = false ∧ ev.isConnection = false) ∧
    added (s.listenerRoute EndpointPermitted c).events = [] ∧
    removed (s.listenerRoute EndpointPermitted c).events = [] ∧
    monitored (s.listenerRoute EndpointPermitted c).events = [] := by
  have ha : Authorized EndpointPermitted c := by
    by_contra hn
    obtain ⟨t, ht, hp⟩ := rejected_of_not_authorized EndpointPermitted c hn
    rw [listenerRoute_rejected EndpointPermitted s c t ht hp] at hcalled
    simp at hcalled
  rw [listenerRoute_upgrade_err EndpointPermitted s c e ha hu]
  simp [Event.isResponse, Event.isConnection, added, removed, monitored]

/-- C5, at a request without token whose upgrade fails. -/
theorem C5_upgrade_error_ends_witness :
    Event.upgrade ∈ ((NewServer false false).listenerRoute permitsListed
      failedUpgradeRequest).events ∧
    failedUpgradeRequest.upgrade = .err "bad handshake" ∧
    ((NewServer false false).listenerRoute permitsListed failedUpgradeRequest).events =
      [.upgrade, .warn "failed to upgrade websocket"] :=
  ⟨by decide, rfl,
    (C5_upgrade_error_ends permitsListed (NewServer false false) failedUpgradeRequest
      "bad handshake" (by decide) rfl).1⟩

/-- C2: when the request passes the authorization check and the upgrade
succeeds, `AddConn` is called exactly once, with the connection made for the
requested endpoint ID over the new stream, before the single call of `Monitor`;
`RemoveConn` is called exactly once, with that same connection, after
`Monitor` has ended, however it ended (nil, an error, or a panic); so the
connections added and not removed are, at the end, the ones there were before. -/
theorem C2_add_once_remove_once (EndpointPermitted : EndpointToken → String → Bool)
    (s : Server) (c : GinContext) (ws : WebsocketConn)
    (ha : Authorized EndpointPermitted c) (hu : c.upgrade = .ok ws) :
    (NewRPCConn c.endpointID (NewStream ws)).endpointID = c.endpointID ∧
    added (s.listenerRoute EndpointPermitted c).events
      = [NewRPCConn c.endpointID (NewStream ws)] ∧
    removed (s.listenerRoute EndpointPermitted c).events
      = [NewRPCConn c.endpointID (NewStream ws)] ∧
    (∃ before after ctx,
      (s.listenerRoute EndpointPermitted c).events =
        before ++ [.addConn (NewRPCConn c.endpointID (NewStream ws)),
          .monitor (NewStream ws) ctx (Second * 10) (Second * 10)] ++ after ∧
      monitored before = [] ∧ monitored after = [] ∧
      Event.removeConn (NewRPCConn c.endpointID (NewStream ws)) ∈ after) ∧
    ∀ live, outstanding live (s.listenerRoute EndpointPermitted c).events = live := by
  rw [listenerRoute_upgraded EndpointPermitted s c ws ha hu]
  refine ⟨rfl, ?_, ?_, ?_, ?_⟩
  · cases c.monitor <;> cases he : expiringToken c <;> simp [teardown, he, added]
  · cases c.monitor <;> cases he : expiringToken c <;> simp [teardown, he, removed]
  · refine ⟨[.upgrade, .newStream (NewStream ws), .debug "listener connected"],
      (match c.monitor with
        | .err _ => [.debug "listener disconnected"]
        | _ => []) ++ teardown c (NewRPCConn c.endpointID (NewStream ws)),
      monitorContext s c, ?_, ?_, ?_, ?_⟩
    · simp
    · simp [monitored]
    · cases c.monitor <;> cases he : expiringToken c <;> simp [teardown, he, monitored]
    · cases c.monitor <;> cases he : expiringToken c <;> simp [teardown, he]
  · intro live
    cases c.monitor <;> cases he : expiringToken c <;> simp [teardown, he, outstanding]

theorem plainRequest_authorized : Authorized permitsListed plainRequest := by
  intro t ht
  simp [plainRequest] at ht

/-- C2, at a request without token for "svc-1" whose `Monitor` returns an
error. -/
theorem C2_add_once_remove_once_witness :
    Authorized permitsListed plainRequest ∧
    plainRequest.upgrade = .ok { id := 7 } ∧
    added ((NewServer false false).listenerRoute permitsListed plainRequest).events
      = [{ endpointID := "svc-1", stream := { conn := { id := 7 } } }] ∧
    removed ((NewServer false false).listenerRoute permitsListed plainRequest).events
      = [{ endpointID := "svc-1", stream := { conn := { id := 7 } } }] :=
  ⟨plainRequest_authorized, rfl,
    (C2_add_once_remove_once permitsListed (NewServer false false) plainRequest { id := 7 }
      plainRequest_authorized rfl).2.1,
    (C2_add_once_remove_once permitsListed (NewServer false false) plainRequest { id := 7 }
      plainRequest_authorized rfl).2.2.1⟩

theorem expiringRequest_authorized : Authorized permitsListed expiringRequest := by
  intro t ht
  simp only [expiringRequest, Option.some.injEq] at ht
  subst ht
  decide

/-- C8 as stated fails: on the exit of `listenerRoute` through a panic of
`AddConn`, after a successful upgrade, the only deferred call is `Close`; the
stream is closed, `RemoveConn` is not called, and the close happens while the
connection passed to `AddConn` has not been removed. -/
theorem C8_addConn_panic_counterexample :
    Authorized permitsListed plainRequest ∧
    plainRequest.upgrade = .ok { id := 7 } ∧
    (NewServer false false).listenerRouteWith addConnPanics permitsListed plainRequest =
      { events :=
          [ .upgrade,
            .newStream { conn := { id := 7 } },
            .debug "listener connected",
            .addConn { endpointID := "svc-1", stream := { conn := { id := 7 } } },
            .close { conn := { id := 7 } } ]
        panic := some "nil pointer dereference" } ∧
    removed ((NewServer false false).listenerRouteWith addConnPanics permitsListed
      plainRequest).events = [] ∧
    closesOnlyRemoved [] ((NewServer false false).listenerRouteWith addConnPanics
      permitsListed plainRequest).events = false := by
  refine ⟨plainRequest_authorized, rfl, ?_, ?_, ?_⟩ <;> decide

/-- C8, amended: on every exit of `listenerRoute` after `AddConn` has returned
(through `Monitor` returning nil or an error, or through a panic of `Monitor`
or of any later call) the last events are the teardown, in this order: the
cancel of the expiry-deadline context when one was made (the token carries an
expiry), then `RemoveConn` of the connection, then `Close` of the stream;
nothing before that is a teardown call; and no `Close` happens while a
connection over that stream is added and not yet removed. -/
theorem C8_teardown_order_once_added (panics : Event → Option String)
    (EndpointPermitted : EndpointToken → String → Bool)
    (s : Server) (c : GinContext) (ws : WebsocketConn)
    (ha : Authorized EndpointPermitted c) (hu : c.upgrade = .ok ws)
    (hs : panics (.newStream (NewStream ws)) = none)
    (hd : panics (.debug "listener connected") = none)
    (hadd : panics (.addConn (NewRPCConn c.endpointID (NewStream ws))) = none) :
    (∃ body,
      (s.listenerRouteWith panics EndpointPermitted c).events =
        body ++
        (match expiringToken c with
          | some _ => [Event.cancel (.request c.id)]
          | none => []) ++
        [ .removeConn (NewRPCConn c.endpointID (NewStream ws)),
          .close (NewStream ws) ] ∧
      ∀ ev ∈ body, ev.isTeardown = false) ∧
    closesOnlyRemoved [] (s.listenerRouteWith panics EndpointPermitted c).events = true := by
  rw [listenerRouteWith_added panics EndpointPermitted s c ws ha hu hs hd hadd]
  constructor
  · refine ⟨[ .upgrade,
        .newStream (NewStream ws),
        .debug "listener connected",
        .addConn (NewRPCConn c.endpointID (NewStream ws)),
        .monitor (NewStream ws) (monitorContext s c) (Second * 10) (Second * 10) ] ++
      (match c.monitor with
        | .err _ => [.debug "listener disconnected"]
        | _ => []), ?_, ?_⟩
    · simp [teardown, NewRPCConn]
    · cases c.monitor <;> simp [Event.isTeardown]
  · cases c.monitor <;> cases he : expiringToken c <;> simp [teardown, he, closesOnlyRemoved]

/-- C8 amended, at a request whose token expires at instant 5000, whose
`Monitor` panics and whose `RemoveConn` panics as well. -/
theorem C8_teardown_order_once_added_witness :
    Authorized permitsListed expiringRequest ∧
    expiringRequest.upgrade = .ok { id := 7 } ∧
    removeConnPanics (.newStream (NewStream { id := 7 })) = none ∧
    removeConnPanics (.debug "listener connected") = none ∧
    removeConnPanics (.addConn (NewRPCConn expiringRequest.endpointID (NewStream { id := 7 })))
      = none ∧
    closesOnlyRemoved []
      ((NewServer true false).listenerRouteWith removeConnPanics permitsListed
        expiringRequest).events = true :=
  ⟨expiringRequest_authorized, rfl, rfl, rfl, rfl,
    (C8_teardown_order_once_added removeConnPanics permitsListed (NewServer true false)
      expiringRequest { id := 7 } expiringRequest_authorized rfl rfl rfl rfl).2⟩

/-- C3: for a connection registered by a server made by `NewServer`, `Monitor`
is called once, with a context that is: when the token is present and its
expiry is not the zero time, a deadline context whose parent is the shutdown
context of the server and whose deadline is exactly that expiry; when there is
no token or the expiry is the zero time, the shutdown context itself, with no
deadline.  In both cases the context is done whenever the shutdown context is
done, in particular once the cancel function of the shutdown context has been
called. -/
theorem C3_monitor_context (EndpointPermitted : EndpointToken → String → Bool)
    (verifier registry : Bool) (c : GinContext) (ws : WebsocketConn)
    (ha : Authorized EndpointPermitted c) (hu : c.upgrade = .ok ws) :
    ∃ ctx,
      monitored ((NewServer verifier registry).listenerRoute EndpointPermitted c).events
        = [ctx] ∧
      (∀ t, c.token = some t → t.Expiry ≠ 0 →
        ctx = .timerCtx (NewServer verifier registry).shutdownCtx t.Expiry (.request c.id) ∧
        ctx.parent? = some (NewServer verifier registry).shutdownCtx ∧
        ctx.Deadline = some t.Expiry) ∧
      ((c.token = none ∨ ∃ t, c.token = some t ∧ t.Expiry = 0) →
        ctx = (NewServer verifier registry).shutdownCtx ∧ ctx.Deadline = none) ∧
      (∀ cancelled now,
        (NewServer verifier registry).shutdownCtx.Done cancelled now = true →
        ctx.Done cancelled now = true) ∧
      (∀ cancelled now,
        (NewServer verifier registry).shutdownCancel ∈ cancelled →
        ctx.Done cancelled now = true) := by
  refine ⟨monitorContext (NewServer verifier registry) c, ?_, ?_, ?_, ?_, ?_⟩
  · rw [listenerRoute_upgraded EndpointPermitted _ c ws ha hu]
    cases c.monitor <;> cases he : expiringToken c <;> simp [teardown, he, monitored]
  · intro t ht hz
    simp [monitorContext, expiringToken, ht, hz, NewServer, WithDeadline, WithCancel,
      Context.Deadline, Context.parent?]
  · rintro (hn | ⟨t, ht, hz⟩)
    · simp [monitorContext, expiringToken, hn, NewServer, WithCancel, Context.Deadline]
    · simp [monitorContext, expiringToken, ht, hz, NewServer, WithCancel, Context.Deadline]
  · intro cancelled now hd
    cases ht : c.token with
    | none => simpa [monitorContext, expiringToken, ht] using hd
    | some t =>
      by_cases hz : t.Expiry = 0
      · simpa [monitorContext, expiringToken, ht, hz] using hd
      · simp [NewServer, WithCancel, Context.Done] at hd
        simp [monitorContext, expiringToken, ht, hz, NewServer, WithDeadline, WithCancel,
          Context.Deadline, Context.Done, hd]
  · intro cancelled now hc
    simp only [NewServer] at hc
    cases ht : c.token with
    | none => simp [monitorContext, expiringToken, ht, NewServer, WithCancel, Context.Done, hc]
    | some t =>
      by_cases hz : t.Expiry = 0
      · simp [monitorContext, expiringToken, ht, hz, NewServer, WithCancel, Context.Done, hc]
      · simp [monitorContext, expiringToken, ht, hz, NewServer, WithDeadline, WithCancel,
          Context.Deadline, Context.Done, hc]

/-- C3, at a request whose token expires at instant 5000: the context passed to
`Monitor` has deadline 5000. -/
theorem C3_monitor_context_witness :
    Authorized permitsListed expiringRequest ∧
    expiringRequest.upgrade = .ok { id := 7 } ∧
    (monitored ((NewServer true false).listenerRoute permitsListed
      expiringRequest).events).map Context.Deadline = [some 5000] := by
  refine ⟨expiringRequest_authorized, rfl, ?_⟩
  obtain ⟨ctx, hm, hd, _⟩ := C3_monitor_context permitsListed true false expiringRequest
    { id := 7 } expiringRequest_authorized rfl
  rw [hm]
  have h := (hd { Endpoints := ["svc-1"], Expiry := 5000 } rfl (by decide)).2.2
  simp [h]

end ListenerTheorems

/-! ## Upstream server: shutdown and panics -/

section ServerTheorems

open upstream

/-- C4 (what the code does): `Server.Shutdown` calls no cancel function.  After
`Shutdown` on a freshly started process the shutdown context of the server is
not done at any time, and neither is the context that `listenerRoute` passes to
`Monitor` for a connection without token. -/
theorem C4_shutdown_cancels_nothing (verifier registry : Bool) (p : Process) (now : Time) :
    ((NewServer verifier registry).Shutdown p).cancelled = p.cancelled ∧
    (NewServer verifier registry).shutdownCancel
      ∉ ((NewServer verifier registry).Shutdown Process.start).cancelled ∧
    (NewServer verifier registry).shutdownCtx.Done
      ((NewServer verifier registry).Shutdown Process.start).cancelled now = false ∧
    (monitored ((NewServer verifier registry).listenerRoute permitsListed
        plainRequest).events).map
      (Context.Done ((NewServer verifier registry).Shutdown Process.start).cancelled now)
      = [false] := by
  refine ⟨rfl, ?_, ?_, ?_⟩
  · simp [Server.Shutdown, Process.start]
  · simp [Server.Shutdown, Process.start, NewServer, WithCancel, Context.Done]
  · simp [Server.listenerRoute, plainRequest, monitored, Server.Shutdown, Process.start,
      NewServer, WithCancel, Context.Done]

/-- Every panic raised by a handler that comes after the recovery handler is
recovered: when the token middleware is absent or does not panic, no panic
leaves the chain that `NewServer` builds. -/
theorem serve_recovers (verifier registry : Bool) (raised : Handler → Option String)
    (h : verifier = false ∨ raised .verifyEndpointToken = none) :
    ((NewServer verifier registry).serve raised (NewServer verifier registry).router).panic
      = none := by
  rcases h with h | h
  · subst h
    cases registry <;> simp [NewServer, Server.serve] <;>
      cases raised .logger <;> cases raised .metrics <;> cases raised .listenerRoute <;>
      simp [Server.serve]
  · cases verifier <;> cases registry <;> simp [NewServer, Server.serve, h] <;>
      cases raised .logger <;> cases raised .metrics <;> cases raised .listenerRoute <;>
      simp [Server.serve]

/-- When no panic value is a broken-pipe or connection-reset network error,
`serveWith` is `serve`. -/
theorem serveWith_no_brokenPipe (s : Server) (raised : Handler → Option String)
    (chain : List Handler) :
    s.serveWith (fun _ => false) raised chain = s.serve raised chain := by
  induction chain with
  | nil => rfl
  | cons h rest ih =>
    cases h <;> simp [Server.serveWith, Server.serve, ih]

/-- Whatever the recovery handler does with the panics it recovers, a panic of
the token middleware leaves the chain that `NewServer` builds with a verifier. -/
theorem serveWith_token_middleware_panic (registry : Bool) (v : String)
    (brokenPipe : String → Bool) :
    (NewServer true registry).serveWith brokenPipe
        (fun h => if h = .verifyEndpointToken then some v else none)
        (NewServer true registry).router
      = { events := [], panic := some v } := by
  cases registry <;> simp [NewServer, Server.serveWith]

/-- The events of `panicRoute`: an error log and an aborted 500; no call on the
proxy. -/
theorem panicRoute_events (s : Server) (err : String) :
    s.panicRoute err = [.error "handler panic", .abortWithStatus 500] ∧
    added (s.panicRoute err) = [] ∧ removed (s.panicRoute err) = [] := by
  simp [Server.panicRoute, StatusInternalServerError, added, removed]

/-- C6 (what the code does): with a verifier configured the token middleware is
the first handler of the chain, before the recovery handler.  A panic raised in
it leaves the chain unrecovered: `panicRoute` is not run and no 500 is
written. -/
theorem C6_token_middleware_panic_escapes (registry : Bool) (v : String) :
    (NewServer true registry).router.head? = some .verifyEndpointToken ∧
    (NewServer true registry).serve
        (fun h => if h = .verifyEndpointToken then some v else none)
        (NewServer true registry).router
      = { events := [], panic := some v } := by
  cases registry <;> simp [NewServer, Server.serve]

end ServerTheorems

end Pico
